import Mathlib

/-
Verification of the HERTZ per-guild playback engine against its source
(src/hertz/services/player.py and src/hertz/config.py).

The Python `Player` class is embedded shallowly: its mutable fields become a
Lean structure, every method becomes a pure state-transformer, and a method
that can raise `ValueError` returns a `StepResult` carrying both the state at
return-or-raise time and the raised message (Python exceptions propagate while
keeping the mutations already applied to the object).  External I/O (the
Discord voice socket, ffmpeg, yt-dlp, the settings database) is represented by
the fields the code itself branches on: `voice_connected` mirrors
`voice_client is not None`, `pipeline` mirrors the voice client's
is_playing()/is_paused() flags, `position_tracking` mirrors the background
position-tracker task being alive, and the settings value
`secondsToWaitAfterQueueEmpties` is passed as an explicit argument where the
code reads it.  The error-recovery path inside `Player.play` that reacts to an
ffmpeg/voice failure (an external exception) is not modelled; the modelled
`play` is its non-throwing path.
-/

namespace Hertz

/-- Embeds the `MediaSource` enum (player.py lines 21-23). -/
inductive MediaSource
  | YOUTUBE
  | HLS
deriving Repr, DecidableEq

/-- Embeds the `Status` enum (player.py lines 25-28). -/
inductive Status
  | PLAYING
  | PAUSED
  | IDLE
deriving Repr, DecidableEq

/-- State of the underlying voice-client audio pipeline: mirrors
`voice_client.is_playing()` / `voice_client.is_paused()`; `stopped` covers
both "never started" and "stopped / connection released". -/
inductive PipelineState
  | stopped
  | playing
  | paused
deriving Repr, DecidableEq

/-- Embeds `QueuedSong` (and its base `SongMetadata`), player.py lines 30-62.
The `playlist` dict is embedded as an optional association list. -/
structure QueuedSong where
  title : String
  artist : String
  url : String
  length : Nat
  offset : Nat := 0
  playlist : Option (List (String × String)) := none
  is_live : Bool := false
  thumbnail_url : Option String := none
  source : MediaSource := MediaSource.YOUTUBE
  added_in_channel_id : String
  requested_by : String
deriving Repr, DecidableEq

/-- Python truthiness of the optional `playlist` dict: `None` and the empty
dict are falsy, a non-empty dict is truthy (used by `Player.add`). -/
def dictTruthy (d : Option (List (String × String))) : Bool :=
  match d with
  | none => false
  | some entries => !entries.isEmpty

/-- Embeds the mutable fields of `Player` that the verified methods read or
write (player.py lines 70-90).  `position_tracking` is true exactly when the
`position_tracker_task` is alive, `disconnect_timer` is true exactly when the
auto-disconnect timer handle is armed, and `voice_connected` is true exactly
when `voice_client` is not `None`. -/
structure Player where
  status : Status := Status.IDLE
  queue : List QueuedSong := []
  queue_position : Nat := 0
  position_in_seconds : Nat := 0
  volume : Option Nat := none
  default_volume : Nat := 100
  loop_current_song : Bool := false
  loop_current_queue : Bool := false
  position_tracking : Bool := false
  disconnect_timer : Bool := false
  voice_connected : Bool := false
  pipeline : PipelineState := PipelineState.stopped
  last_song_url : String := ""
deriving Repr, DecidableEq

/-- The state of a freshly constructed `Player` (player.py `__init__`,
lines 70-90): empty queue, cursor 0, IDLE, no voice client, no timers. -/
def Player.initial : Player := {}

/-- Result of a method that can raise: the player state at return-or-raise
time together with the raised `ValueError` message, if any. -/
structure StepResult where
  player : Player
  err : Option String := none
deriving Repr, DecidableEq

/-- Embeds `Player.get_current` (player.py lines 101-105). -/
def Player.get_current (p : Player) : Option QueuedSong :=
  if p.queue_position < p.queue.length then p.queue.get? p.queue_position else none

/-- Embeds `Player.get_queue` (player.py lines 107-109): the songs strictly
after the cursor. -/
def Player.get_queue (p : Player) : List QueuedSong :=
  if p.queue_position < p.queue.length then p.queue.drop (p.queue_position + 1) else []

/-- Embeds `Player.queue_size` (player.py lines 111-113). -/
def Player.queue_size (p : Player) : Nat :=
  p.get_queue.length

/-- Embeds `Player.add` (player.py lines 119-133).  A song that belongs to a
playlist, or one not marked `immediate`, is appended; otherwise it is inserted
at `queue_position + 1` (Python `list.insert` clamps to append when the index
exceeds the length, which `take`/`drop` reproduce). -/
def Player.add (p : Player) (song : QueuedSong) (immediate : Bool := false) : Player :=
  if dictTruthy song.playlist || !immediate then
    { p with queue := p.queue ++ [song] }
  else
    { p with queue :=
        p.queue.take (p.queue_position + 1) ++ song :: p.queue.drop (p.queue_position + 1) }

/-- Embeds `Player.clear` (player.py lines 135-143): the queue becomes just
the current song (or empty when there is none) and the cursor is reset to 0. -/
def Player.clear (p : Player) : Player :=
  match p.get_current with
  | some current => { p with queue := [current], queue_position := 0 }
  | none => { p with queue := [], queue_position := 0 }

/-- Embeds `Player.remove_from_queue` (player.py lines 152-156):
`del queue[actual : actual + amount]` when `actual` is in range, else no-op. -/
def Player.remove_from_queue (p : Player) (index : Nat) (amount : Nat := 1) : Player :=
  let actual_index := p.queue_position + index
  if actual_index < p.queue.length then
    { p with queue := p.queue.take actual_index ++ p.queue.drop (actual_index + amount) }
  else p

/-- Embeds `Player.move` (player.py lines 158-168): bounds-checked pop of
`queue_position + from_pos` followed by insert at `queue_position + to_pos`
(the returned song value, used only for the reply message, is not modelled). -/
def Player.move (p : Player) (from_pos to_pos : Nat) : StepResult :=
  let actual_from := p.queue_position + from_pos
  let actual_to := p.queue_position + to_pos
  if h : actual_from < p.queue.length ∧ actual_to < p.queue.length then
    let song := p.queue.get ⟨actual_from, h.1⟩
    let popped := p.queue.take actual_from ++ p.queue.drop (actual_from + 1)
    { player := { p with queue := popped.take actual_to ++ song :: popped.drop actual_to } }
  else
    { player := p, err := some "Position out of bounds" }

/-- Embeds `Player.seek` (player.py lines 353-401).  After the validity
checks it stops any running playback, re-opens the pipeline at the requested
offset, restores the pre-seek status (`previous_status`), sets the tracked
position to `position_seconds` and restarts the position tracker
(`_start_position_tracking(position_seconds)`). -/
def Player.seek (p : Player) (position_seconds : Nat) : StepResult :=
  if !p.voice_connected then { player := p, err := some "Not connected to a voice channel" }
  else
    match p.get_current with
    | none => { player := p, err := some "No song currently playing" }
    | some current_song =>
      if current_song.is_live then { player := p, err := some "Cannot seek in a livestream" }
      else if current_song.length < position_seconds then
        { player := p, err := some "Cannot seek past the end of the song" }
      else
        let previous_status := p.status
        let p := if p.pipeline = PipelineState.playing ∨ p.pipeline = PipelineState.paused
                 then { p with pipeline := PipelineState.stopped } else p
        let p := { p with pipeline := PipelineState.playing }
        { player := { p with status := previous_status,
                             position_in_seconds := position_seconds,
                             position_tracking := true } }

/-- Embeds the tail of `Player.play`'s try block (player.py lines 267-333):
stop any existing playback, start the new source, record the song URL, set the
status to PLAYING and keep the position tracker running.  (The line-319 check
`current_song.url == self.last_song_url` is always true there because the URL
was just assigned on line 316, so the tracker is started without resetting the
position.)  The `except` branch reacting to an ffmpeg/voice failure is
external I/O and is not modelled. -/
def Player.start_playback (p : Player) (current_song : QueuedSong) : StepResult :=
  let p := if p.pipeline = PipelineState.playing ∨ p.pipeline = PipelineState.paused
           then { p with pipeline := PipelineState.stopped } else p
  { player := { p with pipeline := PipelineState.playing, status := Status.PLAYING,
                       last_song_url := current_song.url, position_tracking := true } }

/-- Embeds `Player.play` (player.py lines 227-339): raises when disconnected
or when the queue has no current song; cancels a pending auto-disconnect; when
resuming the same PAUSED song it either resumes the paused voice client,
re-seeks to the tracked position, or falls through to a fresh start. -/
def Player.play (p : Player) : StepResult :=
  if !p.voice_connected then { player := p, err := some "Not connected to a voice channel" }
  else
    match p.get_current with
    | none => { player := p, err := some "Queue is empty" }
    | some current_song =>
      let p := { p with disconnect_timer := false }
      if p.status = Status.PAUSED ∧ current_song.url = p.last_song_url then
        if p.pipeline = PipelineState.paused then
          { player := { p with pipeline := PipelineState.playing, status := Status.PLAYING,
                               position_tracking := true } }
        else if 0 < p.position_in_seconds then
          let r := p.seek p.position_in_seconds
          match r.err with
          | none => { player := { r.player with status := Status.PLAYING } }
          | some e => { player := r.player, err := some e }
        else
          p.start_playback current_song
      else
        p.start_playback current_song

/-- Embeds `Player.pause` (player.py lines 341-351): only valid while
PLAYING; pauses the voice client, records PAUSED and stops the tracker. -/
def Player.pause (p : Player) : StepResult :=
  if p.status = Status.PLAYING then
    let p := if p.voice_connected ∧ p.pipeline = PipelineState.playing
             then { p with pipeline := PipelineState.paused } else p
    { player := { p with status := Status.PAUSED, position_tracking := false } }
  else { player := p, err := some "Not currently playing" }

/-- Embeds `Player.disconnect` (player.py lines 204-225): stops the tracker,
cancels the auto-disconnect timer and, when connected, demotes PLAYING to
PAUSED and releases the voice connection (which also ends the audio). -/
def Player.disconnect (p : Player) : Player :=
  let p := { p with position_tracking := false, disconnect_timer := false }
  if p.voice_connected then
    let p := if p.status = Status.PLAYING then { p with status := Status.PAUSED } else p
    { p with voice_connected := false, pipeline := PipelineState.stopped }
  else p

/-- Embeds `Player.stop` (player.py lines 476-488): raises unless connected
and PLAYING; then disconnects, empties the queue, resets the cursor and goes
IDLE. -/
def Player.stop (p : Player) : StepResult :=
  if !p.voice_connected then { player := p, err := some "Not connected" }
  else if p.status = Status.PLAYING then
    let p := p.disconnect
    { player := { p with queue := [], queue_position := 0, status := Status.IDLE } }
  else { player := p, err := some "Not currently playing" }

/-- Embeds `Player.forward` (player.py lines 407-456).  `disconnect_delay` is
the settings value `secondsToWaitAfterQueueEmpties` the method reads.  When
the target is inside the queue the cursor advances and (unless PAUSED) `play`
runs; otherwise the cursor and queue are left as they are, playback stops, the
status becomes IDLE and the auto-disconnect timer is armed when the delay is
positive. -/
def Player.forward (p : Player) (skip : Nat) (disconnect_delay : Nat) : StepResult :=
  let p := { p with position_tracking := false }
  let was_looping_queue := p.loop_current_queue
  let p := { p with loop_current_song := false }
  if p.queue_position + skip < p.queue.length then
    let p := { p with queue_position := p.queue_position + skip, position_in_seconds := 0,
                      loop_current_queue := was_looping_queue }
    if p.status = Status.PAUSED then { player := p } else p.play
  else
    let p := if p.voice_connected ∧
                (p.pipeline = PipelineState.playing ∨ p.pipeline = PipelineState.paused)
             then { p with pipeline := PipelineState.stopped } else p
    let p := { p with status := Status.IDLE }
    let p := if 0 < disconnect_delay then { p with disconnect_timer := true } else p
    { player := p }

/-- Embeds `Player.back` (player.py lines 458-474): raises at cursor 0;
otherwise moves the cursor back one, resets the position and (unless PAUSED)
plays. -/
def Player.back (p : Player) : StepResult :=
  if 0 < p.queue_position then
    let p := { p with queue_position := p.queue_position - 1, position_in_seconds := 0,
                      position_tracking := false }
    if p.status = Status.PAUSED then { player := p } else p.play
  else { player := p, err := some "No songs to go back to" }

/-- Embeds `Player._handle_song_finished` (player.py lines 743-757): ignore
unless PLAYING; with `loop_current_song` re-seek to 0; else, with
`loop_current_queue`, append the current song back to the end, then advance by
one (the auto-announce tail is reply rendering and is not modelled). -/
def Player.handle_song_finished (p : Player) (disconnect_delay : Nat) : StepResult :=
  if p.status = Status.PLAYING then
    if p.loop_current_song then p.seek 0
    else
      let p := if p.loop_current_queue then
                 match p.get_current with
                 | some current_song => p.add current_song
                 | none => p
               else p
      p.forward 1 disconnect_delay
  else { player := p }

/-- One second of wall-clock time as seen by the position tracker
(`Player._start_position_tracking`, player.py lines 678-693): while the
tracker task is alive it increments `position_in_seconds` once per second,
regardless of the player's status. -/
def Player.tick (p : Player) : Player :=
  if p.position_tracking then { p with position_in_seconds := p.position_in_seconds + 1 }
  else p

/-- The 30-minute caching bound appearing literally as `30 * 60` in
`Player._get_audio_source` (player.py line 591). -/
def CACHE_MAX_TRACK_SECONDS : Nat := 30 * 60

/-- Embeds the `should_cache` decision of `Player._get_audio_source`
(player.py lines 588-593): not a livestream, duration strictly below 30
minutes, and no seek offset requested.  `is_live` and `duration` are the
values `info.get('is_live', False)` and `info.get('duration', 0)` extracted
for the track. -/
def should_cache (is_live : Bool) (duration : Nat) (seek_position : Option Nat) : Bool :=
  !is_live && decide (duration < 30 * 60) && seek_position.isNone

/-- Whether `Player._get_audio_source` (player.py lines 491-615) schedules a
background cache fill: only on the origin-streaming path, i.e. when the cache
lookup missed (`cache_path` is none) and the song is a YouTube source (the HLS
branch streams directly), and then exactly when `should_cache` holds. -/
def schedules_cache_fill (cache_path : Option String) (src : MediaSource)
    (is_live : Bool) (duration : Nat) (seek_position : Option Nat) : Bool :=
  cache_path.isNone && (src == MediaSource.YOUTUBE) &&
    should_cache is_live duration seek_position

/-- Embeds the `Config` model fields relevant to boot (config.py lines
18-33): `DISCORD_TOKEN` and `YOUTUBE_API_KEY` are declared without defaults
under the comment "Required configuration", the remaining fields default. -/
structure Config where
  DISCORD_TOKEN : String
  YOUTUBE_API_KEY : String
  SPOTIFY_CLIENT_ID : Option String := none
  SPOTIFY_CLIENT_SECRET : Option String := none
  DATA_DIR : String := "/data"
  CACHE_LIMIT : String := "2GB"
deriving Repr, DecidableEq

/-- First binding of `key` in the environment, mirroring `os.environ` reads in
`load_config` (config.py lines 84-93). -/
def lookup_env (env : List (String × String)) (key : String) : Option String :=
  (env.find? (fun kv => kv.1 == key)).map (fun kv => kv.2)

/-- Whether loading produced a `Config` rather than a validation error. -/
def config_ok (r : Except String Config) : Bool :=
  match r with
  | Except.ok _ => true
  | Except.error _ => false

/-- Embeds `load_config` (config.py lines 79-96): it collects the recognized
environment variables and constructs `Config(**env_vars)`; pydantic rejects
the construction with a `ValidationError` whenever a field declared without a
default — `DISCORD_TOKEN` or `YOUTUBE_API_KEY` — is absent, and fills the
declared defaults for the optional fields otherwise. -/
def load_config (env : List (String × String)) : Except String Config :=
  match lookup_env env "DISCORD_TOKEN", lookup_env env "YOUTUBE_API_KEY" with
  | some token, some api_key =>
    Except.ok { DISCORD_TOKEN := token, YOUTUBE_API_KEY := api_key,
                SPOTIFY_CLIENT_ID := lookup_env env "SPOTIFY_CLIENT_ID",
                SPOTIFY_CLIENT_SECRET := lookup_env env "SPOTIFY_CLIENT_SECRET",
                DATA_DIR := (lookup_env env "DATA_DIR").getD "/data",
                CACHE_LIMIT := (lookup_env env "CACHE_LIMIT").getD "2GB" }
  | none, _ =>
    Except.error "1 validation error for Config: DISCORD_TOKEN field required"
  | some _, none =>
    Except.error "1 validation error for Config: YOUTUBE_API_KEY field required"

/-- A queue-shaping command in the sense of spec §8 invariant 1: enqueue
(`Player.add`), advance (`Player.forward`), or back (`Player.back`). -/
inductive QueueOp
  | enqueue (song : QueuedSong) (immediate : Bool)
  | advance (n : Nat) (disconnect_delay : Nat)
  | go_back
deriving Repr

/-- Apply one queue operation, keeping the player state reached even when the
operation raised (Python exceptions leave prior mutations in place). -/
def Player.apply_op (p : Player) (op : QueueOp) : Player :=
  match op with
  | QueueOp.enqueue song immediate => p.add song immediate
  | QueueOp.advance n d => (p.forward n d).player
  | QueueOp.go_back => (p.back).player

/-- Apply a sequence of queue operations in order. -/
def Player.apply_ops (p : Player) (ops : List QueueOp) : Player :=
  ops.foldl Player.apply_op p

/-- The cursor invariant of spec §8 invariant 1 and §3 "Queue": the cursor
never exceeds the queue length, is 0 on an empty queue, and stays within
`len - 1` on a nonempty queue. -/
def cursor_inv (p : Player) : Prop :=
  p.queue_position ≤ p.queue.length ∧
  (p.queue.length = 0 → p.queue_position = 0) ∧
  (0 < p.queue.length → p.queue_position ≤ p.queue.length - 1)

/-- Concrete track "song-A" used in the concrete scenarios. -/
def songA : QueuedSong :=
  { title := "song-A", artist := "artist-A", url := "url-A", length := 120,
    added_in_channel_id := "chan-1", requested_by := "user-1" }

/-- Concrete track "song-B" used in the concrete scenarios. -/
def songB : QueuedSong :=
  { title := "song-B", artist := "artist-B", url := "url-B", length := 130,
    added_in_channel_id := "chan-1", requested_by := "user-1" }

/-- Concrete track "song-C" used in the concrete scenarios. -/
def songC : QueuedSong :=
  { title := "song-C", artist := "artist-C", url := "url-C", length := 140,
    added_in_channel_id := "chan-1", requested_by := "user-1" }

/-- Concrete track "song-D" used in the concrete scenarios. -/
def songD : QueuedSong :=
  { title := "song-D", artist := "artist-D", url := "url-D", length := 150,
    added_in_channel_id := "chan-1", requested_by := "user-1" }

/-! Helper lemmas about the embedded operations, shared by the claim
theorems below. -/

/-- `play` never changes the queue or the cursor (its only queue-related
effect is choosing what to stream). -/
theorem play_player_queue (p : Player) :
    (p.play).player.queue = p.queue ∧ (p.play).player.queue_position = p.queue_position := by
  unfold Player.play Player.start_playback Player.seek
  dsimp only
  repeat' split
  all_goals simp

/-- `forward` keeps the queue and moves the cursor only when the target is
strictly inside the queue. -/
theorem forward_player_queue (p : Player) (n d : Nat) :
    (p.forward n d).player.queue = p.queue ∧
    (p.forward n d).player.queue_position =
      (if p.queue_position + n < p.queue.length then p.queue_position + n
       else p.queue_position) := by
  unfold Player.forward
  dsimp only
  by_cases hlt : p.queue_position + n < p.queue.length
  · simp only [hlt, if_true, if_pos]
    split
    · simp
    · have h := play_player_queue
        { p with position_tracking := false, loop_current_song := false,
                 queue_position := p.queue_position + n, position_in_seconds := 0,
                 loop_current_queue := p.loop_current_queue }
      simpa using h
  · simp only [hlt, if_false, if_neg]
    repeat' split
    all_goals simp

/-- `back` keeps the queue and decrements the cursor only when it was
positive. -/
theorem back_player_queue (p : Player) :
    (p.back).player.queue = p.queue ∧
    (p.back).player.queue_position =
      (if 0 < p.queue_position then p.queue_position - 1 else p.queue_position) := by
  unfold Player.back
  dsimp only
  by_cases hpos : 0 < p.queue_position
  · simp only [hpos, if_true]
    split
    · simp
    · have h := play_player_queue
        { p with queue_position := p.queue_position - 1, position_in_seconds := 0,
                 position_tracking := false }
      simpa using h
  · simp [hpos]

/-- `get_current` only depends on the queue and the cursor. -/
theorem get_current_congr (p q : Player) (hq : q.queue = p.queue)
    (hpos : q.queue_position = p.queue_position) : q.get_current = p.get_current := by
  unfold Player.get_current
  rw [hq, hpos]

/-- `get_queue` only depends on the queue and the cursor. -/
theorem get_queue_congr (p q : Player) (hq : q.queue = p.queue)
    (hpos : q.queue_position = p.queue_position) : q.get_queue = p.get_queue := by
  unfold Player.get_queue
  rw [hq, hpos]

/-- A player with a current song has its cursor strictly inside the queue. -/
theorem get_current_lt (p : Player) (c : QueuedSong) (hcur : p.get_current = some c) :
    p.queue_position < p.queue.length := by
  unfold Player.get_current at hcur
  by_cases h : p.queue_position < p.queue.length
  · exact h
  · rw [if_neg h] at hcur
    exact absurd hcur (by simp)

/-- Success path of `play` when the player is connected, has a current song,
and is not resuming from pause. -/
theorem play_fresh (p : Player) (c : QueuedSong)
    (hconn : p.voice_connected = true)
    (hcur : p.get_current = some c)
    (hstat : p.status ≠ Status.PAUSED) :
    (p.play).err = none ∧
    (p.play).player.queue = p.queue ∧
    (p.play).player.queue_position = p.queue_position ∧
    (p.play).player.status = Status.PLAYING ∧
    (p.play).player.pipeline = PipelineState.playing ∧
    (p.play).player.position_in_seconds = p.position_in_seconds := by
  unfold Player.play Player.start_playback
  dsimp only
  rw [hcur]
  simp [hconn, hstat]
  split <;> simp

/-- `forward` into a position strictly inside the queue, on a connected
non-paused player: the cursor advances by `n`, the position resets, and
playback restarts. -/
theorem forward_within (p : Player) (n d : Nat)
    (hconn : p.voice_connected = true)
    (hlt : p.queue_position + n < p.queue.length)
    (hstat : p.status ≠ Status.PAUSED) :
    (p.forward n d).err = none ∧
    (p.forward n d).player.queue = p.queue ∧
    (p.forward n d).player.queue_position = p.queue_position + n ∧
    (p.forward n d).player.status = Status.PLAYING ∧
    (p.forward n d).player.position_in_seconds = 0 := by
  unfold Player.forward
  dsimp only
  simp only [hlt, if_true, hstat, if_pos]
  have hplay := play_fresh
    { p with position_tracking := false, loop_current_song := false,
             queue_position := p.queue_position + n, position_in_seconds := 0,
             loop_current_queue := p.loop_current_queue }
    (p.queue.get ⟨p.queue_position + n, hlt⟩)
    (by simpa using hconn)
    (by unfold Player.get_current; simp [hlt, List.get?_eq_get hlt])
    (by simpa using hstat)
  simp only at hplay
  split
  · rename_i hpaused
    simp only at hpaused
  · exact ⟨hplay.1, hplay.2.1, hplay.2.2.1, hplay.2.2.2.1, hplay.2.2.2.2.2⟩

/-- `add` with the default `immediate = False` always appends (the Python
condition `song.playlist or not immediate` is true). -/
theorem add_default_appends (p : Player) (c : QueuedSong) :
    (p.add c).queue = p.queue ++ [c] ∧
    (p.add c).queue_position = p.queue_position := by
  unfold Player.add
  simp

/-- A player whose position tracker is stopped is a fixed point of `tick`. -/
theorem tick_fixed_of_not_tracking (p : Player) (h : p.position_tracking = false) :
    p.tick = p := by
  unfold Player.tick
  rw [h]
  simp

/-! Cursor invariant (claim C9). -/

/-- `add` preserves the cursor invariant. -/
theorem cursor_inv_add (p : Player) (s : QueuedSong) (im : Bool) (h : cursor_inv p) :
    cursor_inv (p.add s im) := by
  obtain ⟨h1, h2, h3⟩ := h
  unfold Player.add
  split <;>
    refine ⟨?_, ?_, ?_⟩ <;>
    simp only [List.length_append, List.length_cons, List.length_take, List.length_drop,
               List.length_nil] <;>
    intros <;> omega

/-- `forward` preserves the cursor invariant. -/
theorem cursor_inv_forward (p : Player) (n d : Nat) (h : cursor_inv p) :
    cursor_inv ((p.forward n d).player) := by
  obtain ⟨hfq, hfpos⟩ := forward_player_queue p n d
  obtain ⟨h1, h2, h3⟩ := h
  refine ⟨?_, ?_, ?_⟩ <;> rw [hfq, hfpos] <;> split <;> intros <;> omega

/-- `back` preserves the cursor invariant. -/
theorem cursor_inv_back (p : Player) (h : cursor_inv p) :
    cursor_inv ((p.back).player) := by
  obtain ⟨hfq, hfpos⟩ := back_player_queue p
  obtain ⟨h1, h2, h3⟩ := h
  refine ⟨?_, ?_, ?_⟩ <;> rw [hfq, hfpos] <;> split <;> intros <;> omega

/-- Every single queue operation preserves the cursor invariant. -/
theorem cursor_inv_apply_op (p : Player) (op : QueueOp) (h : cursor_inv p) :
    cursor_inv (p.apply_op op) := by
  cases op with
  | enqueue s im => exact cursor_inv_add p s im h
  | advance n d => exact cursor_inv_forward p n d h
  | go_back => exact cursor_inv_back p h

/-- Every sequence of queue operations preserves the cursor invariant. -/
theorem cursor_inv_apply_ops (p : Player) (ops : List QueueOp) (h : cursor_inv p) :
    cursor_inv (p.apply_ops ops) := by
  induction ops generalizing p with
  | nil => exact h
  | cons op rest ih => exact ih (p.apply_op op) (cursor_inv_apply_op p op h)

/-- A fresh player satisfies the cursor invariant. -/
theorem cursor_inv_initial : cursor_inv Player.initial :=
  ⟨Nat.le_refl 0, fun _ => rfl, fun hlt => absurd hlt (by decide)⟩

/-- Claim C9 (confirmed): for any sequence of enqueue (`add`), advance
(`forward`) and back (`back`) operations applied to a player from its initial
state, the cursor always satisfies `0 ≤ cursor ≤ len(queue)`; it is 0 while
the queue is empty and at most `len(queue) - 1` once the queue is nonempty
(`add` never moves the cursor, `forward` advances it only when the target is
strictly inside the queue, `back` decrements it only when it is positive). -/
theorem queue_cursor_always_in_bounds (ops : List QueueOp) :
    cursor_inv (Player.initial.apply_ops ops) :=
  cursor_inv_apply_ops Player.initial ops cursor_inv_initial

/-! Claim C1: skipping past the end of the queue. -/

/-- A connected player playing "song-A" with one upcoming song. -/
def c1_player : Player :=
  { Player.initial with
      status := Status.PLAYING
      voice_connected := true
      pipeline := PipelineState.playing
      position_tracking := true
      queue := [songA, songB]
      queue_position := 0
      last_song_url := songA.url }

/-- Claim C1 (counterexample): on a connected player with queue `[A, B]` and
cursor 0, `forward(5)` (with `n = 5` greater than the 1 upcoming track) does
set the state to IDLE, but `get_current()` is still `some A` (not none) and
the upcoming queue is still `[B]` (not empty), because the end-of-queue
branch of `Player.forward` never moves the cursor or the queue. -/
theorem c1_forward_past_end_counterexample :
    (c1_player.forward 5 30).player.status = Status.IDLE ∧
    (c1_player.forward 5 30).player.get_current ≠ none ∧
    (c1_player.forward 5 30).player.get_queue ≠ [] := by decide

/-- Claim C1 (amended): for every connected player, `forward(n)` with
`n` at least the number of remaining tracks (`len ≤ cursor + n`) raises no
error, sets the state to IDLE and arms the auto-disconnect timer (given a
positive configured delay), but leaves the queue and cursor untouched, so
`get_current()` and the upcoming queue are exactly what they were before the
skip. -/
theorem forward_past_end (p : Player) (n delay : Nat)
    (hconn : p.voice_connected = true)
    (hpast : p.queue.length ≤ p.queue_position + n)
    (hdelay : 0 < delay) :
    (p.forward n delay).err = none ∧
    (p.forward n delay).player.status = Status.IDLE ∧
    (p.forward n delay).player.disconnect_timer = true ∧
    (p.forward n delay).player.queue = p.queue ∧
    (p.forward n delay).player.queue_position = p.queue_position ∧
    (p.forward n delay).player.get_current = p.get_current ∧
    (p.forward n delay).player.get_queue = p.get_queue := by
  have hnlt : ¬ (p.queue_position + n < p.queue.length) := by omega
  have base : (p.forward n delay).err = none ∧
      (p.forward n delay).player.status = Status.IDLE ∧
      (p.forward n delay).player.disconnect_timer = true ∧
      (p.forward n delay).player.queue = p.queue ∧
      (p.forward n delay).player.queue_position = p.queue_position := by
    unfold Player.forward
    dsimp only
    simp only [hnlt, if_false, hdelay, if_true]
    split <;> simp [hdelay]
  obtain ⟨h1, h2, h3, h4, h5⟩ := base
  exact ⟨h1, h2, h3, h4, h5,
    get_current_congr p (p.forward n delay).player h4 h5,
    get_queue_congr p (p.forward n delay).player h4 h5⟩

/-- Claim C1 (witness): the amended theorem instantiated at the concrete
connected player with queue `[A, B]`, `n = 5`, delay 30 s. -/
theorem forward_past_end_witness :
    c1_player.voice_connected = true ∧
    c1_player.queue.length ≤ c1_player.queue_position + 5 ∧
    (0 : Nat) < 30 ∧
    (c1_player.forward 5 30).player.status = Status.IDLE ∧
    (c1_player.forward 5 30).player.disconnect_timer = true :=
  ⟨rfl, by decide, by decide,
   (forward_past_end c1_player 5 30 rfl (by decide) (by decide)).2.1,
   (forward_past_end c1_player 5 30 rfl (by decide) (by decide)).2.2.1⟩

/-! Claim C2: `stop()` while PAUSED. -/

/-- A connected player paused in the middle of "song-A". -/
def c2_paused_player : Player :=
  { Player.initial with
      status := Status.PAUSED
      voice_connected := true
      pipeline := PipelineState.paused
      queue := [songA]
      position_in_seconds := 10
      last_song_url := songA.url }

/-- A connected player playing "song-A". -/
def c2_playing_player : Player :=
  { Player.initial with
      status := Status.PLAYING
      voice_connected := true
      pipeline := PipelineState.playing
      position_tracking := true
      queue := [songA]
      position_in_seconds := 10
      last_song_url := songA.url }

/-- Claim C2 (counterexample): on a connected PAUSED player `stop()` does
not succeed: `Player.stop` raises `ValueError("Not currently playing")`
(guard at player.py line 481) and leaves the state untouched. -/
theorem c2_stop_paused_counterexample :
    c2_paused_player.status = Status.PAUSED ∧
    c2_paused_player.voice_connected = true ∧
    (c2_paused_player.stop).err = some "Not currently playing" ∧
    (c2_paused_player.stop).player = c2_paused_player := by decide

/-- Claim C2 (amended): `stop()` succeeds only from PLAYING; on a connected
PLAYING player it transitions to IDLE, clears the queue, resets the cursor
and releases the voice connection (stopping the audio), while on a connected
PAUSED player it fails with "Not currently playing" and changes nothing. -/
theorem stop_only_when_playing (p : Player)
    (hconn : p.voice_connected = true) :
    (p.status = Status.PLAYING →
      (p.stop).err = none ∧
      (p.stop).player.status = Status.IDLE ∧
      (p.stop).player.queue = [] ∧
      (p.stop).player.queue_position = 0 ∧
      (p.stop).player.voice_connected = false ∧
      (p.stop).player.pipeline = PipelineState.stopped) ∧
    (p.status = Status.PAUSED →
      (p.stop).err = some "Not currently playing" ∧ (p.stop).player = p) := by
  constructor
  · intro hplay
    unfold Player.stop Player.disconnect
    simp [hconn, hplay]
  · intro hpause
    unfold Player.stop
    simp [hconn, hpause]

/-- Claim C2 (witness): the amended theorem instantiated at the concrete
connected PLAYING player. -/
theorem stop_only_when_playing_witness :
    (c2_playing_player.stop).err = none ∧
    (c2_playing_player.stop).player.status = Status.IDLE ∧
    (c2_playing_player.stop).player.queue = [] :=
  ⟨((stop_only_when_playing c2_playing_player rfl).1 rfl).1,
   ((stop_only_when_playing c2_playing_player rfl).1 rfl).2.1,
   ((stop_only_when_playing c2_playing_player rfl).1 rfl).2.2.1⟩

/-! Claim C3: move then remove on the queue `[A, B, C, D]`. -/

/-- A connected player with queue `[A, B, C, D]`, cursor 0, playing A. -/
def c3_start : Player :=
  { Player.initial with
      status := Status.PLAYING
      voice_connected := true
      pipeline := PipelineState.playing
      position_tracking := true
      queue := [songA, songB, songC, songD]
      queue_position := 0
      last_song_url := songA.url }

/-- The state after `move(from=3, to=1)` followed by
`remove(position=2, range=1)` on `c3_start`. -/
def c3_final : Player :=
  ((c3_start.move 3 1).player).remove_from_queue 2 1

/-- Claim C3 (counterexample): after `move(3, 1)` the queue is
`[A, D, B, C]`, so `remove(position=2, range=1)` deletes B (the second
upcoming track), leaving upcoming `[D, C]` — not the `[D, B]` the claim
expects. -/
theorem c3_move_remove_counterexample :
    c3_final.get_queue ≠ [songD, songB] ∧
    c3_final.get_current = some songA := by decide

/-- Claim C3 (amended): starting from queue `[A, B, C, D]` with cursor 0,
`move(from=3, to=1)` succeeds and yields queue `[A, D, B, C]`, and the
subsequent `remove(position=2, range=1)` removes B, leaving upcoming
`[D, C]` with current still A. -/
theorem c3_move_remove_amended :
    (c3_start.move 3 1).err = none ∧
    (c3_start.move 3 1).player.queue = [songA, songD, songB, songC] ∧
    c3_final.get_current = some songA ∧
    c3_final.get_queue = [songD, songC] := by decide

/-! Claim C4: loop policy on natural track completion. -/

/-- A connected player playing "song-A" of `[A, B]` with song-looping on. -/
def c4_loop_player : Player :=
  { Player.initial with
      status := Status.PLAYING
      voice_connected := true
      pipeline := PipelineState.playing
      position_tracking := true
      queue := [songA, songB]
      queue_position := 0
      position_in_seconds := 100
      last_song_url := songA.url
      loop_current_song := true }

/-- A connected player playing "song-B" (last of `[A, B]`) with
queue-looping on. -/
def c4_queue_player : Player :=
  { Player.initial with
      status := Status.PLAYING
      voice_connected := true
      pipeline := PipelineState.playing
      position_tracking := true
      queue := [songA, songB]
      queue_position := 1
      position_in_seconds := 100
      last_song_url := songB.url
      loop_current_queue := true }

/-- A connected player playing "song-A" of `[A, B]` with no looping. -/
def c4_next_player : Player :=
  { Player.initial with
      status := Status.PLAYING
      voice_connected := true
      pipeline := PipelineState.playing
      position_tracking := true
      queue := [songA, songB]
      queue_position := 0
      position_in_seconds := 100
      last_song_url := songA.url }

/-- A live track for the looped-livestream completion case. -/
def songLive : QueuedSong :=
  { title := "live-stream", artist := "artist-L", url := "url-L", length := 0,
    is_live := true, added_in_channel_id := "chan-1", requested_by := "user-1" }

/-- A connected player playing the LAST track (song B of `[A, B]`, cursor 1)
with no loop flags. -/
def c4_last_player : Player :=
  { Player.initial with
      status := Status.PLAYING
      voice_connected := true
      pipeline := PipelineState.playing
      position_tracking := true
      queue := [songA, songB]
      queue_position := 1
      position_in_seconds := 100
      last_song_url := songB.url }

/-- A connected player playing a livestream with song-looping on. -/
def c4_live_loop_player : Player :=
  { Player.initial with
      status := Status.PLAYING
      voice_connected := true
      pipeline := PipelineState.playing
      position_tracking := true
      queue := [songLive]
      queue_position := 0
      position_in_seconds := 100
      last_song_url := songLive.url
      loop_current_song := true }

/-- Claim C4 (counterexample): two natural-finish cases falsify the claim.
With no loop flags and the LAST track finishing (queue `[A, B]`, cursor 1),
the cursor does not advance by 1: `forward(1)` takes its end-of-queue branch,
so the cursor stays at 1, the state goes IDLE and song B stays current.  And
with `loop_current_song` set on a live current track, the pipeline does not
restart at seek 0: `seek(0)` raises "Cannot seek in a livestream" and the
state is unchanged. -/
theorem c4_natural_finish_counterexample :
    ((c4_last_player.handle_song_finished 30).player.queue_position ≠
       c4_last_player.queue_position + 1 ∧
     (c4_last_player.handle_song_finished 30).player.queue_position =
       c4_last_player.queue_position ∧
     (c4_last_player.handle_song_finished 30).player.status = Status.IDLE ∧
     (c4_last_player.handle_song_finished 30).player.get_current = some songB) ∧
    ((c4_live_loop_player.handle_song_finished 30).err =
       some "Cannot seek in a livestream" ∧
     (c4_live_loop_player.handle_song_finished 30).player = c4_live_loop_player) := by
  decide

/-- Claim C4 (amended): when a track finishes naturally on a connected
PLAYING player with current song `c`: with `loop_current_song` set the player
re-seeks to 0 — when `c` is not live the pipeline restarts at position 0
(still PLAYING) with the cursor and queue unchanged, but when `c` is live the
seek raises "Cannot seek in a livestream" and the state is unchanged;
otherwise with `loop_current_queue` set the just-finished current track is
appended to the end of the queue and the cursor then advances by 1; otherwise
the cursor advances by 1 when a next track exists, while on the last track
the cursor and queue stay put, the state becomes IDLE and the
auto-disconnect timer is armed (given a positive configured delay). -/
theorem handle_song_finished_policy (p : Player) (delay : Nat) (c : QueuedSong)
    (hstatus : p.status = Status.PLAYING)
    (hconn : p.voice_connected = true)
    (hcur : p.get_current = some c) :
    (p.loop_current_song = true → c.is_live = false →
      (p.handle_song_finished delay).err = none ∧
      (p.handle_song_finished delay).player.queue = p.queue ∧
      (p.handle_song_finished delay).player.queue_position = p.queue_position ∧
      (p.handle_song_finished delay).player.position_in_seconds = 0 ∧
      (p.handle_song_finished delay).player.pipeline = PipelineState.playing ∧
      (p.handle_song_finished delay).player.status = Status.PLAYING) ∧
    (p.loop_current_song = true → c.is_live = true →
      (p.handle_song_finished delay).err = some "Cannot seek in a livestream" ∧
      (p.handle_song_finished delay).player = p) ∧
    (p.loop_current_song = false → p.loop_current_queue = true →
      (p.handle_song_finished delay).err = none ∧
      (p.handle_song_finished delay).player.queue = p.queue ++ [c] ∧
      (p.handle_song_finished delay).player.queue_position = p.queue_position + 1) ∧
    (p.loop_current_song = false → p.loop_current_queue = false →
      p.queue_position + 1 < p.queue.length →
      (p.handle_song_finished delay).err = none ∧
      (p.handle_song_finished delay).player.queue = p.queue ∧
      (p.handle_song_finished delay).player.queue_position = p.queue_position + 1) ∧
    (p.loop_current_song = false → p.loop_current_queue = false →
      p.queue.length ≤ p.queue_position + 1 →
      (p.handle_song_finished delay).err = none ∧
      (p.handle_song_finished delay).player.status = Status.IDLE ∧
      (p.handle_song_finished delay).player.queue = p.queue ∧
      (p.handle_song_finished delay).player.queue_position = p.queue_position ∧
      (0 < delay → (p.handle_song_finished delay).player.disconnect_timer = true)) := by
  refine ⟨?_, ?_, ?_, ?_, ?_⟩
  · intro hsong hlive
    unfold Player.handle_song_finished
    simp only [hstatus, if_pos, hsong, if_true]
    unfold Player.seek
    dsimp only
    rw [hcur]
    simp [hconn, hlive, hstatus]
    split <;> simp
  · intro hsong hlive
    unfold Player.handle_song_finished
    simp only [hstatus, if_pos, hsong, if_true]
    unfold Player.seek
    dsimp only
    rw [hcur]
    simp [hconn, hlive]
  · intro hsong hqueue
    unfold Player.handle_song_finished
    simp only [hstatus, if_pos, hsong, Bool.false_eq_true, if_false, hqueue, if_true]
    rw [hcur]
    obtain ⟨haddq, haddpos⟩ := add_default_appends p c
    have hlt : (p.add c).queue_position + 1 < (p.add c).queue.length := by
      rw [haddq, haddpos]
      simp
      exact get_current_lt p c hcur
    have hf := forward_within (p.add c) 1 delay
      (by rw [show (p.add c).voice_connected = p.voice_connected from by
            unfold Player.add; split <;> rfl]; exact hconn)
      hlt
      (by rw [show (p.add c).status = p.status from by
            unfold Player.add; split <;> rfl]; rw [hstatus]; decide)
    rw [haddq, haddpos] at hf
    exact ⟨hf.1, hf.2.1, hf.2.2.1⟩
  · intro hsong hqueue hlt
    unfold Player.handle_song_finished
    simp only [hstatus, if_pos, hsong, Bool.false_eq_true, if_false, hqueue]
    have hf := forward_within p 1 delay hconn hlt (by rw [hstatus]; decide)
    exact ⟨hf.1, hf.2.1, hf.2.2.1⟩
  · intro hsong hqueue hend
    unfold Player.handle_song_finished
    simp only [hstatus, if_pos, hsong, Bool.false_eq_true, if_false, hqueue]
    have hnlt : ¬ (p.queue_position + 1 < p.queue.length) := by omega
    unfold Player.forward
    dsimp only
    simp only [hnlt, if_false]
    by_cases hdelay : 0 < delay
    · simp only [hdelay, if_true]
      split <;> simp
    · simp only [hdelay, if_false]
      split <;> simp [hdelay]

/-- Claim C4 (witness): the five branches of the amended policy theorem
instantiated at concrete completions — a non-live song-loop restart, a live
song-loop failure, a queue-loop re-append-and-advance, a plain advance with
a successor, and a last-track finish that goes IDLE with the cursor
unmoved. -/
theorem handle_song_finished_policy_witness :
    ((c4_loop_player.handle_song_finished 30).err = none ∧
     (c4_loop_player.handle_song_finished 30).player.queue = c4_loop_player.queue ∧
     (c4_loop_player.handle_song_finished 30).player.queue_position =
       c4_loop_player.queue_position ∧
     (c4_loop_player.handle_song_finished 30).player.position_in_seconds = 0 ∧
     (c4_loop_player.handle_song_finished 30).player.pipeline = PipelineState.playing ∧
     (c4_loop_player.handle_song_finished 30).player.status = Status.PLAYING) ∧
    ((c4_live_loop_player.handle_song_finished 30).err =
       some "Cannot seek in a livestream" ∧
     (c4_live_loop_player.handle_song_finished 30).player = c4_live_loop_player) ∧
    ((c4_queue_player.handle_song_finished 30).err = none ∧
     (c4_queue_player.handle_song_finished 30).player.queue =
       c4_queue_player.queue ++ [songB] ∧
     (c4_queue_player.handle_song_finished 30).player.queue_position =
       c4_queue_player.queue_position + 1) ∧
    ((c4_next_player.handle_song_finished 30).err = none ∧
     (c4_next_player.handle_song_finished 30).player.queue = c4_next_player.queue ∧
     (c4_next_player.handle_song_finished 30).player.queue_position =
       c4_next_player.queue_position + 1) ∧
    ((c4_last_player.handle_song_finished 30).err = none ∧
     (c4_last_player.handle_song_finished 30).player.status = Status.IDLE ∧
     (c4_last_player.handle_song_finished 30).player.queue = c4_last_player.queue ∧
     (c4_last_player.handle_song_finished 30).player.queue_position =
       c4_last_player.queue_position ∧
     ((0 : Nat) < 30 →
       (c4_last_player.handle_song_finished 30).player.disconnect_timer = true)) :=
  ⟨(handle_song_finished_policy c4_loop_player 30 songA rfl rfl (by decide)).1
     rfl rfl,
   (handle_song_finished_policy c4_live_loop_player 30 songLive rfl rfl (by decide)).2.1
     rfl rfl,
   (handle_song_finished_policy c4_queue_player 30 songB rfl rfl (by decide)).2.2.1
     rfl rfl,
   (handle_song_finished_policy c4_next_player 30 songA rfl rfl (by decide)).2.2.2.1
     rfl rfl (by decide),
   (handle_song_finished_policy c4_last_player 30 songB rfl rfl (by decide)).2.2.2.2
     rfl rfl (by decide)⟩

/-! Claim C5: the reported position while PAUSED. -/

/-- A connected player 10 seconds into "song-A". -/
def c5_player : Player :=
  { Player.initial with
      status := Status.PLAYING
      voice_connected := true
      pipeline := PipelineState.playing
      position_tracking := true
      queue := [songA]
      queue_position := 0
      position_in_seconds := 10
      last_song_url := songA.url }

/-- Claim C5 (counterexample): pause at 10 s, then `seek(60)` while PAUSED —
the player is still PAUSED and reports position 60, but one tick of the
position tracker advances the reported position to 61, because
`Player.seek` restarts `_start_position_tracking` regardless of the restored
PAUSED status; the position does not stay frozen while PAUSED. -/
theorem c5_seek_paused_counterexample :
    ((c5_player.pause).player.seek 60).player.status = Status.PAUSED ∧
    ((c5_player.pause).player.seek 60).player.position_in_seconds = 60 ∧
    (((c5_player.pause).player.seek 60).player.tick).status = Status.PAUSED ∧
    (((c5_player.pause).player.seek 60).player.tick).position_in_seconds = 61 := by
  decide

/-- Claim C5 (amended): after `pause()` on a PLAYING player the reported
position stays frozen at the value it had when the pause took effect, for any
amount of elapsed time, as long as no other operation runs — but a `seek(t)`
performed while PAUSED restarts the position tracker, after which the
reported position advances with time even though the state is still PAUSED
(the counterexample above). -/
theorem paused_position_frozen (p : Player) (k : Nat)
    (hplay : p.status = Status.PLAYING) :
    (Player.tick^[k] (p.pause).player).position_in_seconds = p.position_in_seconds ∧
    (Player.tick^[k] (p.pause).player).status = Status.PAUSED := by
  have hnt : (p.pause).player.position_tracking = false := by
    unfold Player.pause
    rw [if_pos hplay]
  rw [Function.iterate_fixed (tick_fixed_of_not_tracking _ hnt) k]
  unfold Player.pause
  rw [if_pos hplay]
  split <;> exact ⟨rfl, rfl⟩

/-- Claim C5 (witness): the amended theorem instantiated at the concrete
player paused at 10 s, three ticks later. -/
theorem paused_position_frozen_witness :
    (Player.tick^[3] (c5_player.pause).player).position_in_seconds = 10 ∧
    (Player.tick^[3] (c5_player.pause).player).status = Status.PAUSED :=
  ⟨(paused_position_frozen c5_player 3 rfl).1.trans rfl,
   (paused_position_frozen c5_player 3 rfl).2⟩

/-! Claim C6: seek while PAUSED preserves the paused state. -/

/-- A connected player paused 10 seconds into "song-A" (duration 120 s). -/
def c6_player : Player :=
  { Player.initial with
      status := Status.PAUSED
      voice_connected := true
      pipeline := PipelineState.paused
      queue := [songA]
      queue_position := 0
      position_in_seconds := 10
      last_song_url := songA.url }

/-- Claim C6 (confirmed): for every connected player that is PAUSED with a
current non-live track and `t ≤ duration`, `seek(t)` succeeds, leaves the
player PAUSED (the pre-seek status is restored, not promoted to PLAYING),
and the reported position immediately after the seek equals `t`. -/
theorem seek_preserves_paused (p : Player) (t : Nat) (c : QueuedSong)
    (hconn : p.voice_connected = true)
    (hpaused : p.status = Status.PAUSED)
    (hcur : p.get_current = some c)
    (hlive : c.is_live = false)
    (ht : t ≤ c.length) :
    (p.seek t).err = none ∧
    (p.seek t).player.status = Status.PAUSED ∧
    (p.seek t).player.position_in_seconds = t := by
  unfold Player.seek
  dsimp only
  rw [hcur]
  have hnlt : ¬ (c.length < t) := by omega
  simp [hconn, hlive, hnlt, hpaused]

/-- Claim C6 (witness): the theorem instantiated at the concrete paused
player and `seek(60)` inside the 120 s track. -/
theorem seek_preserves_paused_witness :
    (c6_player.seek 60).err = none ∧
    (c6_player.seek 60).player.status = Status.PAUSED ∧
    (c6_player.seek 60).player.position_in_seconds = 60 :=
  seek_preserves_paused c6_player 60 songA rfl rfl (by decide) rfl (by decide)

/-! Claim C7: what `clear()` keeps. -/

/-- A connected player on the second track of `[A, B, C]` (cursor 1), so
song A is already-played history behind the cursor. -/
def c7_player : Player :=
  { Player.initial with
      status := Status.PLAYING
      voice_connected := true
      pipeline := PipelineState.playing
      position_tracking := true
      queue := [songA, songB, songC]
      queue_position := 1
      last_song_url := songB.url }

/-- Claim C7 (counterexample): with queue `[A, B, C]` and cursor 1,
`clear()` leaves the queue as just `[B]` — the already-played track A is
dropped, the cursor resets to 0, and a subsequent `back()` fails even though
the cursor was previously positive. -/
theorem c7_clear_counterexample :
    0 < c7_player.queue_position ∧
    c7_player.clear.queue = [songB] ∧
    songA ∉ c7_player.clear.queue ∧
    (c7_player.clear.back).err = some "No songs to go back to" := by decide

/-- Claim C7 (amended): `clear()` keeps only the current track: the queue
becomes `[current]` with the cursor reset to 0, so the current track remains
current but the already-played tracks before the cursor are dropped, and a
`back()` immediately after `clear()` always fails, leaving the state
unchanged. -/
theorem clear_drops_history (p : Player) (c : QueuedSong)
    (hcur : p.get_current = some c) :
    p.clear.queue = [c] ∧
    p.clear.queue_position = 0 ∧
    p.clear.get_current = some c ∧
    (p.clear.back).err = some "No songs to go back to" ∧
    (p.clear.back).player = p.clear := by
  unfold Player.clear
  rw [hcur]
  refine ⟨rfl, rfl, by unfold Player.get_current; simp, ?_, ?_⟩ <;>
    unfold Player.back <;> simp

/-- Claim C7 (witness): the amended theorem instantiated at the concrete
player with history, currently on song B. -/
theorem clear_drops_history_witness :
    c7_player.clear.queue = [songB] ∧
    c7_player.clear.queue_position = 0 ∧
    c7_player.clear.get_current = some songB ∧
    (c7_player.clear.back).err = some "No songs to go back to" ∧
    (c7_player.clear.back).player = c7_player.clear :=
  clear_drops_history c7_player songB (by decide)

/-! Claim C8: when a background cache fill is scheduled. -/

/-- Claim C8 (counterexample): the cache bound is 1800 seconds, yet a track
of exactly 1800 seconds streamed from the origin (cache miss, YouTube
source, not live, no seek) is NOT scheduled for caching, because
`Player._get_audio_source` compares `info.get('duration', 0) < 30 * 60`
strictly. -/
theorem c8_exact_1800_counterexample :
    CACHE_MAX_TRACK_SECONDS = 1800 ∧
    schedules_cache_fill none MediaSource.YOUTUBE false 1800 none = false := by decide

/-- Claim C8 (amended): when playback opens the origin stream, a background
cache fill is scheduled if and only if the cache lookup missed, the song is
a YouTube source, no seek offset is applied, the track is not live, and the
track duration is STRICTLY LESS than 30 minutes (1800 seconds); a track of
exactly 1800 seconds is not cached. -/
theorem cache_fill_iff (cache_path : Option String) (src : MediaSource)
    (is_live : Bool) (duration : Nat) (seek_position : Option Nat) :
    schedules_cache_fill cache_path src is_live duration seek_position = true ↔
      (cache_path = none ∧ src = MediaSource.YOUTUBE ∧ is_live = false ∧
       duration < 1800 ∧ seek_position = none) := by
  unfold schedules_cache_fill should_cache
  cases cache_path <;> cases src <;> cases is_live <;> cases seek_position <;> simp

/-! Claim C10: configuration required fields. -/

/-- Claim C10 (counterexample): `load_config()` with `DISCORD_TOKEN` set but
`YOUTUBE_API_KEY` unset does not return a valid `Config`: pydantic rejects
the construction because `Config.YOUTUBE_API_KEY` is declared without a
default (config.py line 21, under "Required configuration"). -/
theorem c10_missing_key_counterexample :
    load_config [("DISCORD_TOKEN", "example-token")] =
      Except.error "1 validation error for Config: YOUTUBE_API_KEY field required" := by
  rfl

/-- Claim C10 (amended): configuration loading succeeds exactly when BOTH
`DISCORD_TOKEN` and `YOUTUBE_API_KEY` are present in the environment —
`YOUTUBE_API_KEY` is required for boot, not optional. -/
theorem load_config_requires_both (env : List (String × String)) :
    config_ok (load_config env) =
      ((lookup_env env "DISCORD_TOKEN").isSome &&
       (lookup_env env "YOUTUBE_API_KEY").isSome) := by
  unfold load_config config_ok
  cases h1 : lookup_env env "DISCORD_TOKEN" <;>
    cases h2 : lookup_env env "YOUTUBE_API_KEY" <;> simp

end Hertz
